import Mathlib

/-!
Verification of the proof-coordination service for a rollup validity-proof
proposer (succinctlabs/optimism-zkp).

The development shallowly embeds the Rust source:

* `src/utils/host/src/lib.rs` — aggregation stdin assembly
  (`get_agg_proof_stdin`) and the host orchestrator (`OPSuccinctHost::run`);
* `src/utils/client/src/l2_chain_provider.rs` — the caching, oracle-backed
  L2 chain provider (`MultiblockOracleL2ChainProvider`);
* `src/proposer/succinct/bin/server.rs` and `src/zkvm-host/bin/server.rs` —
  the `/status` endpoint handler (`get_proof_status`; the two binaries share
  this handler verbatim).

Machine integers are modelled as `Nat` (none of the verified paths exercise
overflow); byte strings as `List Nat`; 32-byte hashes (`B256`) as `Nat`.
Fallible Rust code returns `RunResult`, whose `panicked` constructor records
a Rust panic (out-of-bounds index, `panic!()`, `unwrap` on `None`), kept
distinct from an `Err` return.  Calls into external crates (RLP decoding,
keccak hashing, `to_system_config`, trie walking, bincode/CBOR
serialization) are parameters of the embedding, so every theorem holds for
all behaviours of those collaborators.
-/

namespace OPSuccinct

/-- Outcome of running a fallible piece of Rust code: a normal return,
an `Err` return carrying a message, or a panic. -/
inductive RunResult (α : Type) where
  | ok (value : α)
  | err (msg : String)
  | panicked
  deriving DecidableEq, Repr

namespace RunResult

/-- Rust `Result::is_ok`. -/
def isOk {α : Type} : RunResult α → Bool
  | .ok _ => true
  | _ => false

/-- Rust `Result::is_err` (a panic is not an `Err` return). -/
def isErr {α : Type} : RunResult α → Bool
  | .err _ => true
  | _ => false

/-- Sequencing that propagates both `Err` returns and panics, mirroring
Rust `?` on code that may also panic. -/
def bind {α β : Type} : RunResult α → (α → RunResult β) → RunResult β
  | .ok a, f => f a
  | .err e, _ => .err e
  | .panicked, _ => .panicked

/-- Map over the success value. -/
def map {α β : Type} (f : α → β) : RunResult α → RunResult β
  | .ok a => .ok (f a)
  | .err e => .err e
  | .panicked => .panicked

end RunResult

/-! ## Data model shared by host and client

`Header` keeps the `alloy_consensus::Header` fields the verified code
reads: `parent_hash`, `number`, `timestamp`, `transactions_root`. -/

/-- An L1/L2 block header (the fields of `alloy_consensus::Header` used by
the embedded code). -/
structure Header where
  parent_hash : Nat
  number : Nat
  timestamp : Nat
  transactions_root : Nat
  deriving DecidableEq, Repr

/-- Rust `RawBootInfo` / `BootInfoStruct` (op-succinct client utils): the
ABI-encoded public input of the range program. -/
structure BootInfoStruct where
  l1_head : Nat
  l2_output_root : Nat
  l2_claim : Nat
  l2_claim_block : Nat
  chain_id : Nat
  deriving DecidableEq, Repr

/-! ## SP1 SDK surface used by `get_agg_proof_stdin` -/

/-- Rust `sp1_sdk::SP1Proof`: the proof variants produced by the prover
network.  Payloads are abstracted to a tag value. -/
inductive SP1Proof where
  | core (payload : Nat)
  | compressed (payload : Nat)
  | plonk (payload : Nat)
  | groth16 (payload : Nat)
  deriving DecidableEq, Repr

/-- Whether a proof is the `SP1Proof::Compressed` variant. -/
def SP1Proof.isCompressed : SP1Proof → Bool
  | .compressed _ => true
  | _ => false

/-- Rust `sp1_sdk::SP1VerifyingKey`; `vk` abstracts the inner recursion key and
`hash_u32` the `HashableKey::hash_u32()` digest (eight `u32` words). -/
structure SP1VerifyingKey where
  vk : Nat
  hash_u32 : List Nat
  deriving DecidableEq, Repr

/-- Rust `AggregationInputs` (op-succinct client utils `types.rs`), written to
the aggregation stdin after the sub-proofs. -/
structure AggregationInputs where
  boot_infos : List BootInfoStruct
  latest_l1_checkpoint_head : Nat
  multi_block_vkey : List Nat
  deriving DecidableEq, Repr

/-- One value appended to the stdin buffer.  External serializers
(bincode for `write`, CBOR for the header vector passed to `write_vec`)
are injective on the values the code writes, so the buffer records the
written values themselves. -/
inductive StdinEntry where
  | aggInputs (inputs : AggregationInputs)
  | headerChain (headers : List Header)
  deriving DecidableEq, Repr

/-- Rust `sp1_sdk::SP1Stdin`: a buffer of written values plus the deferred
(compressed proof, verifying key) pairs added by `write_proof`. -/
structure SP1Stdin where
  buffer : List StdinEntry
  proofs : List (Nat × Nat)
  deriving DecidableEq, Repr

/-- Rust `SP1Stdin::new()`. -/
def SP1Stdin.new : SP1Stdin := ⟨[], []⟩

/-- Rust `SP1Stdin::write_proof(reduce_proof, vk)`. -/
def SP1Stdin.write_proof (s : SP1Stdin) (payload vk : Nat) : SP1Stdin :=
  { s with proofs := s.proofs ++ [(payload, vk)] }

/-- Rust `SP1Stdin::write` (bincode-serialize a value and append it). -/
def SP1Stdin.write (s : SP1Stdin) (entry : StdinEntry) : SP1Stdin :=
  { s with buffer := s.buffer ++ [entry] }

/-- Rust `SP1Stdin::write_vec` (append an already-serialized byte vector). -/
def SP1Stdin.write_vec (s : SP1Stdin) (entry : StdinEntry) : SP1Stdin :=
  { s with buffer := s.buffer ++ [entry] }

/-! ## `get_agg_proof_stdin` (src/utils/host/src/lib.rs, lines 87-113) -/

/-- The `for proof in proofs` loop of `get_agg_proof_stdin`: destructure
each element with `let SP1Proof::Compressed(p) = proof else { panic!() }`
and `write_proof` it with the range program's verifying key. -/
def writeSubProofs (stdin : SP1Stdin) (proofs : List SP1Proof)
    (multi_block_vkey : SP1VerifyingKey) : RunResult SP1Stdin :=
  match proofs with
  | [] => .ok stdin
  | p :: rest =>
    match p with
    | .compressed payload =>
        writeSubProofs (stdin.write_proof payload multi_block_vkey.vk) rest
          multi_block_vkey
    | _ => .panicked

/-- Rust `get_agg_proof_stdin` (src/utils/host/src/lib.rs): write each sub-proof
(compressed variant required, anything else hits `panic!()`), then the
`AggregationInputs`, then the CBOR-encoded header chain. -/
def get_agg_proof_stdin (proofs : List SP1Proof)
    (boot_infos : List BootInfoStruct) (headers : List Header)
    (multi_block_vkey : SP1VerifyingKey) (latest_checkpoint_head : Nat) :
    RunResult SP1Stdin :=
  RunResult.bind (writeSubProofs SP1Stdin.new proofs multi_block_vkey)
    fun stdin =>
      let stdin := stdin.write (.aggInputs
        ⟨boot_infos, latest_checkpoint_head, multi_block_vkey.hash_u32⟩)
      let stdin := stdin.write_vec (.headerChain headers)
      .ok stdin

/-! ### Header-chain validity as the specification words it

The specification asserts that `get_agg_proof_stdin` validates the header
chain.  The predicate below is written from the specification's words (not
from the source, which contains no such check), to be compared against the
embedded function: every sub-proof's L1 head must appear in the chain and
each adjacent pair must link by parent hash.  `hashFn` stands for the
header hash (keccak of the RLP encoding in the real code). -/

/-- Spec-side predicate: adjacent header pairs satisfy
`child.parent_hash == parent.hash`. -/
def specAdjacentPairsLink (hashFn : Header → Nat) : List Header → Bool
  | [] => true
  | [_] => true
  | parent :: child :: rest =>
      decide (child.parent_hash = hashFn parent) &&
        specAdjacentPairsLink hashFn (child :: rest)

/-- Spec-side predicate (from §4.8 of the specification, not from the
source): the header chain covers every sub-proof's L1 head and adjacent
pairs link by parent hash. -/
def specHeaderChainValid (hashFn : Header → Nat) (headers : List Header)
    (boot_infos : List BootInfoStruct) : Bool :=
  boot_infos.all (fun b => headers.any (fun h => decide (hashFn h = b.l1_head)))
    && specAdjacentPairsLink hashFn headers

/-! ## L2 chain provider data model
(src/utils/client/src/l2_chain_provider.rs) -/

/-- A typed L2 transaction envelope (`op_alloy_consensus::OpTxEnvelope`),
abstracted to the RLP payload it was decoded from. -/
structure OpTx where
  payload : Nat
  deriving DecidableEq, Repr

/-- An L2 withdrawal (`alloy_eips::eip4895::Withdrawal`); the embedded
code only ever produces empty withdrawal lists, so the fields are
abstracted. -/
structure Withdrawal where
  tag : Nat
  deriving DecidableEq, Repr

/-- EIP-7685 requests (`alloy_eips::eip7685::Requests`); the embedded
code only ever writes `None` here. -/
structure Requests where
  tag : Nat
  deriving DecidableEq, Repr

/-- Rust `alloy_consensus::BlockBody` as instantiated for OP blocks. -/
structure BlockBody where
  transactions : List OpTx
  ommers : List Header
  withdrawals : Option (List Withdrawal)
  requests : Option Requests
  deriving DecidableEq, Repr

/-- Rust `op_alloy_consensus::OpBlock`. -/
structure OpBlock where
  header : Header
  body : BlockBody
  deriving DecidableEq, Repr

/-- Rust `op_alloy_genesis::ChainGenesis`, abstracted to an identifier; the
embedded code only passes it through to `from_block_and_genesis`. -/
structure Genesis where
  tag : Nat
  deriving DecidableEq, Repr

/-- The slice of `op_alloy_genesis::RollupConfig` the embedded code
reads: the genesis (passed to `L2BlockInfo::from_block_and_genesis`) and
the Canyon activation time consulted by `is_canyon_active`. -/
structure RollupConfig where
  genesis : Genesis
  canyon_time : Option Nat
  deriving DecidableEq, Repr

/-- Rust `RollupConfig::is_canyon_active(timestamp)`: Canyon is active when an
activation time is configured and the timestamp has reached it. -/
def RollupConfig.is_canyon_active (c : RollupConfig) (timestamp : Nat) : Bool :=
  match c.canyon_time with
  | some t => decide (t ≤ timestamp)
  | none => false

/-- Rust `op_alloy_genesis::SystemConfig`, abstracted to an identifier; the
provider only stores and returns it. -/
structure SystemConfig where
  tag : Nat
  deriving DecidableEq, Repr

/-- Rust `op_alloy_protocol::L2BlockInfo`, abstracted to an identifier; the
provider only stores and returns it. -/
structure L2BlockInfo where
  tag : Nat
  deriving DecidableEq, Repr

/-- The slice of `kona_client::BootInfo` the provider reads: the agreed
prestate output root and the rollup configuration. -/
structure BootInfo where
  l2_output_root : Nat
  rollup_config : RollupConfig
  deriving DecidableEq, Repr

/-- One of the provider's per-number caches: a `HashMap<u64, α>`,
embedded as an association list where `insert` prepends and `lookup`
takes the first match (observationally the overwriting map). -/
abbrev CacheMap (α : Type) := List (Nat × α)

/-- Rust `HashMap::get`. -/
def CacheMap.lookup {α : Type} : CacheMap α → Nat → Option α
  | [], _ => none
  | (k, v) :: rest, n => if k = n then some v else CacheMap.lookup rest n

/-- Rust `HashMap::insert`. -/
def CacheMap.insert {α : Type} (m : CacheMap α) (k : Nat) (v : α) :
    CacheMap α :=
  (k, v) :: m

/-- The four per-number caches of `MultiblockOracleL2ChainProvider`.
The `Arc<Mutex<_>>` wrappers serialize access; the state they guard is
the four maps. -/
structure ProviderState where
  header_by_number : CacheMap Header
  block_by_number : CacheMap OpBlock
  system_config_by_number : CacheMap SystemConfig
  l2_block_info_by_number : CacheMap L2BlockInfo
  deriving DecidableEq, Repr

/-- Rust `MultiblockOracleL2ChainProvider::new`: all four caches start empty. -/
def ProviderState.new : ProviderState := ⟨[], [], [], []⟩

/-- The hint messages the provider writes
(`kona_client::HintType::…::encode_with`). -/
inductive HintMsg where
  | startingL2Output (outputRoot : Nat)
  | l2BlockHeader (hash : Nat)
  | l2Transactions (hash : Nat)
  | l2Code (hash : Nat)
  | l2StateNode (hash : Nat)
  | l2AccountProof (blockNumber : Nat) (address : Nat)
  | l2AccountStorageProof (blockNumber : Nat) (address : Nat) (slot : Nat)
  deriving DecidableEq, Repr

/-- The preimage oracle as the provider sees it (`CommsClient`):
`write` sends a hint, `get` fetches the preimage stored under a
`Keccak256`-typed key (keys are the 32-byte hash values). -/
structure OracleModel where
  write : HintMsg → RunResult Unit
  get : Nat → RunResult (List Nat)

/-- The external-crate calls the provider makes, taken as parameters of
the embedding: `alloy_rlp` header decoding, `Header::hash_slow` (keccak
of the RLP encoding), the `OrderedListWalker` transaction-trie hydration
(abstracted as a function of the transactions root, returning the ordered
RLP leaves), `OpTxEnvelope::decode_2718`, `to_system_config`, and
`L2BlockInfo::from_block_and_genesis`. -/
structure ExternalFns where
  decodeHeader : List Nat → RunResult Header
  hashSlow : Header → Nat
  trieLeaves : Nat → RunResult (List (List Nat))
  decodeTx : List Nat → RunResult OpTx
  to_system_config : OpBlock → RollupConfig → RunResult SystemConfig
  from_block_and_genesis : OpBlock → Genesis → RunResult L2BlockInfo

/-! ## Provider operations -/

/-- Rust `update_cache` (lines 55-80): insert the header, the block, the
derived system config and the derived `L2BlockInfo` under the header's
number.  The two derivations are fallible and run *after* the first two
inserts, so an error return leaves the earlier inserts in place; the
returned state is the provider state as left by the call on every path. -/
def update_cache (fns : ExternalFns) (st : ProviderState) (header : Header)
    (block : OpBlock) (config : RollupConfig) :
    RunResult L2BlockInfo × ProviderState :=
  let st1 := { st with
    header_by_number := st.header_by_number.insert header.number header }
  let st2 := { st1 with
    block_by_number := st1.block_by_number.insert header.number block }
  match fns.to_system_config block config with
  | .err e => (.err e, st2)
  | .panicked => (.panicked, st2)
  | .ok sysCfg =>
    let st3 := { st2 with
      system_config_by_number :=
        st2.system_config_by_number.insert header.number sysCfg }
    match fns.from_block_and_genesis block config.genesis with
    | .err e => (.err e, st3)
    | .panicked => (.panicked, st3)
    | .ok info =>
      (.ok info, { st3 with
        l2_block_info_by_number :=
          st3.l2_block_info_by_number.insert header.number info })

/-- Rust `header_by_hash` (lines 235-249, `TrieProvider` impl): hint the L2
block header, fetch its preimage by hash, RLP-decode it. -/
def header_by_hash (fns : ExternalFns) (o : OracleModel) (hash : Nat) :
    RunResult Header :=
  RunResult.bind (o.write (.l2BlockHeader hash)) fun _ =>
    RunResult.bind (o.get hash) fun headerBytes =>
      fns.decodeHeader headerBytes

/-- The extraction `output_preimage[96..128].try_into()` (lines 105-107).
Rust slice indexing panics when the preimage is shorter than 128 bytes;
when it succeeds the slice has length exactly 32, so the subsequent
`try_into` (and hence the `map_err` branch) cannot fail.  The 32 extracted
bytes are read back as the big-endian hash value. -/
def extract_block_hash (output_preimage : List Nat) : RunResult Nat :=
  if output_preimage.length < 128 then .panicked
  else .ok (((output_preimage.drop 96).take 32).foldl
    (fun acc b => acc * 256 + b) 0)

/-- The `while header.number > block_number` walk of `header_by_number`
(lines 116-118), with explicit fuel: `none` means the fuel ran out before
the loop exited (the loop itself has no bound in the source). -/
def walk_back (fns : ExternalFns) (o : OracleModel) (block_number : Nat) :
    Header → Nat → Option (RunResult Header)
  | _, 0 => none
  | header, fuel + 1 =>
    if block_number < header.number then
      match header_by_hash fns o header.parent_hash with
      | .ok parent => walk_back fns o block_number parent fuel
      | .err e => some (.err e)
      | .panicked => some .panicked
    else some (.ok header)

/-- Rust `header_by_number` (lines 84-121): serve a cache hit; otherwise hint
and fetch the prestate output preimage, extract the safe-head hash from
bytes [96..128], resolve the safe-head header, fail with
`Block number past L2 head.` when the request exceeds it, and walk
parents down to the requested number.  The provider state is threaded
through to record that the function never writes a cache (the returned
state is the final state). -/
def header_by_number (fns : ExternalFns) (o : OracleModel) (boot : BootInfo)
    (st : ProviderState) (fuel : Nat) (block_number : Nat) :
    Option (RunResult (Header × ProviderState)) :=
  match st.header_by_number.lookup block_number with
  | some header => some (.ok (header, st))
  | none =>
    match o.write (.startingL2Output boot.l2_output_root) with
    | .err e => some (.err e)
    | .panicked => some .panicked
    | .ok _ =>
      match o.get boot.l2_output_root with
      | .err e => some (.err e)
      | .panicked => some .panicked
      | .ok output_preimage =>
        match extract_block_hash output_preimage with
        | .err e => some (.err e)
        | .panicked => some .panicked
        | .ok block_hash =>
          match header_by_hash fns o block_hash with
          | .err e => some (.err e)
          | .panicked => some .panicked
          | .ok header =>
            if header.number < block_number then
              some (.err "Block number past L2 head.")
            else
              (walk_back fns o block_number header fuel).map
                (fun r => r.map (fun h => (h, st)))

/-- The `.map(…).collect::<Result<Vec<_>>>()` over the trie leaves in
`block_by_number` (lines 163-169): decode every leaf, propagating the
first failure. -/
def decode_transactions (fns : ExternalFns) :
    List (List Nat) → RunResult (List OpTx)
  | [] => .ok []
  | leaf :: rest =>
    RunResult.bind (fns.decodeTx leaf) fun tx =>
      RunResult.bind (decode_transactions fns rest) fun txs =>
        .ok (tx :: txs)

/-- Rust `block_by_number` (lines 142-185): serve a cache hit; otherwise
resolve the header, hint `l2-transactions` keyed by the header's own
hash, hydrate and decode the transactions trie, and assemble an
`OpBlock` with empty ommers, withdrawals present-but-empty exactly when
Canyon is active at the header's timestamp, and no requests. -/
def block_by_number (fns : ExternalFns) (o : OracleModel) (boot : BootInfo)
    (st : ProviderState) (fuel : Nat) (number : Nat) :
    Option (RunResult (OpBlock × ProviderState)) :=
  match st.block_by_number.lookup number with
  | some block => some (.ok (block, st))
  | none =>
    match header_by_number fns o boot st fuel number with
    | none => none
    | some (.err e) => some (.err e)
    | some .panicked => some .panicked
    | some (.ok (header, st1)) =>
      let header_hash := fns.hashSlow header
      match o.write (.l2Transactions header_hash) with
      | .err e => some (.err e)
      | .panicked => some .panicked
      | .ok _ =>
        match fns.trieLeaves header.transactions_root with
        | .err e => some (.err e)
        | .panicked => some .panicked
        | .ok leaves =>
          match decode_transactions fns leaves with
          | .err e => some (.err e)
          | .panicked => some .panicked
          | .ok transactions =>
            some (.ok
              ({ header := header
                 body :=
                   { transactions := transactions
                     ommers := []
                     withdrawals :=
                       if boot.rollup_config.is_canyon_active header.timestamp
                       then some [] else none
                     requests := none } }, st1))

/-- Rust `l2_block_info_by_number` (lines 128-140): serve a cache hit;
otherwise fetch the block and derive the `L2BlockInfo` from it and the
boot rollup config's genesis. -/
def l2_block_info_by_number (fns : ExternalFns) (o : OracleModel)
    (boot : BootInfo) (st : ProviderState) (fuel : Nat) (number : Nat) :
    Option (RunResult (L2BlockInfo × ProviderState)) :=
  match st.l2_block_info_by_number.lookup number with
  | some info => some (.ok (info, st))
  | none =>
    match block_by_number fns o boot st fuel number with
    | none => none
    | some (.err e) => some (.err e)
    | some .panicked => some .panicked
    | some (.ok (block, st1)) =>
      match fns.from_block_and_genesis block boot.rollup_config.genesis with
      | .err e => some (.err e)
      | .panicked => some .panicked
      | .ok info => some (.ok (info, st1))

/-- Rust `system_config_by_number` (lines 187-202): serve a cache hit;
otherwise fetch the block and derive the system config from it and the
rollup config passed by the caller. -/
def system_config_by_number (fns : ExternalFns) (o : OracleModel)
    (boot : BootInfo) (st : ProviderState) (fuel : Nat) (number : Nat)
    (rollup_config : RollupConfig) :
    Option (RunResult (SystemConfig × ProviderState)) :=
  match st.system_config_by_number.lookup number with
  | some sysCfg => some (.ok (sysCfg, st))
  | none =>
    match block_by_number fns o boot st fuel number with
    | none => none
    | some (.err e) => some (.err e)
    | some .panicked => some .panicked
    | some (.ok (block, st1)) =>
      match fns.to_system_config block rollup_config with
      | .err e => some (.err e)
      | .panicked => some .panicked
      | .ok sysCfg => some (.ok (sysCfg, st1))

/-! ## Host orchestrator (`OPSuccinctHost::run`,
src/utils/host/src/lib.rs lines 132-146) -/

/-- The in-memory oracle snapshot produced by witness generation,
abstracted to an identifier. -/
structure InMemoryOracle where
  tag : Nat
  deriving DecidableEq, Repr

/-- Whether the spawned preimage-server task has been aborted when `run`
returns. -/
inductive ServerTask where
  | running
  | aborted
  deriving DecidableEq, Repr

/-- What `run` leaves behind: its return value and the state of the
spawned server task. -/
structure RunOutcome where
  result : RunResult InMemoryOracle
  server : ServerTask
  deriving DecidableEq, Repr

/-- Rust `OPSuccinctHost::run`, from the point where `start_server` has
spawned the preimage-server task.  The source awaits
`run_witnessgen_client(…).await?` and only then calls
`server_task.abort()`: the `?` on a client error returns before the
abort, leaving the server task running. -/
def OPSuccinctHost.run (client_result : RunResult InMemoryOracle) :
    RunOutcome :=
  match client_result with
  | .ok oracle => ⟨.ok oracle, .aborted⟩
  | .err e => ⟨.err e, .running⟩
  | .panicked => ⟨.panicked, .running⟩

/-! ## `/status` endpoint handler (`get_proof_status`,
src/proposer/succinct/bin/server.rs lines 139-191 and
src/zkvm-host/bin/server.rs lines 164-219; the two binaries share this
handler verbatim). -/

/-- Rust `sp1_sdk::proto::network::ProofStatus` after the `try_from`
conversion. -/
inductive SP1ProofStatus where
  | proofPreparing
  | proofRequested
  | proofClaimed
  | proofUnclaimed
  | proofFulfilled
  deriving DecidableEq, Repr

/-- Rust `ProofStatus::as_str_name()`. -/
def SP1ProofStatus.as_str_name : SP1ProofStatus → String
  | .proofPreparing => "PROOF_PREPARING"
  | .proofRequested => "PROOF_REQUESTED"
  | .proofClaimed => "PROOF_CLAIMED"
  | .proofUnclaimed => "PROOF_UNCLAIMED"
  | .proofFulfilled => "PROOF_FULFILLED"

/-- Rust `sp1_sdk::SP1ProofWithPublicValues`, keeping the `proof` field the
handler matches on. -/
structure SP1ProofWithPublicValues where
  proof : SP1Proof
  deriving DecidableEq, Repr

/-- The JSON body of a `/status` response: HTTP status code, status
string, proof bytes. -/
structure ProofStatusBody where
  httpStatus : Nat
  status : String
  proof : List Nat
  deriving DecidableEq, Repr

/-- Rust `get_proof_status`, from the point where the remote poll succeeded
and the raw status converted (the env lookup, the 10-second timeout and
the two `map_err`s before this point all short-circuit with an error and
are independent of the proof variant).  `bincodeSer` stands for
`bincode::serialize(&proof)` and `onchainBytes` for `proof.bytes()`, the
two external serializers.  A fulfilled status with a missing proof hits
`maybe_proof.unwrap()` and panics; a fulfilled proof that is neither
`Compressed` nor `Plonk` falls through the match to the final `Ok` with
an empty byte vector, the same body as a not-yet-fulfilled status. -/
def get_proof_status (bincodeSer : SP1ProofWithPublicValues → List Nat)
    (onchainBytes : SP1ProofWithPublicValues → List Nat)
    (status : SP1ProofStatus)
    (maybe_proof : Option SP1ProofWithPublicValues) :
    RunResult ProofStatusBody :=
  if status = .proofFulfilled then
    match maybe_proof with
    | none => .panicked
    | some proof =>
      match proof.proof with
      | .compressed _ =>
          .ok ⟨200, status.as_str_name, bincodeSer proof⟩
      | .plonk _ =>
          .ok ⟨200, status.as_str_name, onchainBytes proof⟩
      | _ => .ok ⟨200, status.as_str_name, []⟩
  else .ok ⟨200, status.as_str_name, []⟩

/-! ## Auxiliary definitions for the theorems -/

/-- Whether a proof is the `SP1Proof::Plonk` variant. -/
def SP1Proof.isPlonk : SP1Proof → Bool
  | .plonk _ => true
  | _ => false

/-- The provider state left behind by a number-keyed read: the state
carried in a successful result, and the caller's state otherwise (an
erroring or fuel-starved read returns no new state; the Rust functions
hold no lock across the failure). -/
def result_state {α : Type} (st : ProviderState) :
    Option (RunResult (α × ProviderState)) → ProviderState
  | some (.ok (_, st1)) => st1
  | _ => st

/-- Cache-shape invariant of reachable provider states: a number absent
from the header cache is absent from the other three caches.  It holds
for the fresh provider and is preserved by `update_cache` (which always
inserts the header first) and by the four reads (which never write). -/
def CacheInv (st : ProviderState) : Prop :=
  ∀ n, st.header_by_number.lookup n = none →
    st.block_by_number.lookup n = none ∧
    st.system_config_by_number.lookup n = none ∧
    st.l2_block_info_by_number.lookup n = none

/-! ## Concrete instances used by witnesses and counterexamples -/

/-- An output preimage of 128 bytes whose bytes [96..128] spell the hash
value 2. -/
def pre128 : List Nat := List.replicate 127 0 ++ [2]

/-- External functions for a well-formed chain: the header preimage of
hash `h` is the singleton `[h]` and decodes to a header numbered `h`
whose parent hash is `h - 1`; trie hydration yields no transactions; the
two derivations succeed. -/
def fnsChain : ExternalFns :=
  { decodeHeader := fun bytes =>
      match bytes with
      | [h] => .ok ⟨h - 1, h, 0, 0⟩
      | _ => .err "RLP"
    hashSlow := fun header => header.number
    trieLeaves := fun _ => .ok []
    decodeTx := fun leaf => .ok ⟨leaf.length⟩
    to_system_config := fun _ _ => .ok ⟨0⟩
    from_block_and_genesis := fun _ _ => .ok ⟨0⟩ }

/-- An oracle serving the prestate output preimage (safe head hash 2)
under key 0 and singleton header preimages under every other key; all
hint writes succeed. -/
def oracleChain : OracleModel :=
  { write := fun _ => .ok ()
    get := fun h => if h = 0 then .ok pre128 else .ok [h] }

/-- Boot information anchored at output root 0 with no Canyon time. -/
def bootChain : BootInfo := ⟨0, ⟨⟨0⟩, none⟩⟩

/-- External functions whose chain of parents skips a number: hash 2
decodes to a header numbered 2 whose parent (hash 1) is numbered 0, a
strict decrease that is not a decrease by one. -/
def fnsJump : ExternalFns :=
  { fnsChain with
    decodeHeader := fun bytes =>
      match bytes with
      | [2] => .ok ⟨1, 2, 0, 0⟩
      | [1] => .ok ⟨5, 0, 0, 0⟩
      | _ => .err "RLP" }

/-- An oracle whose every preimage is empty (in particular the prestate
output preimage is shorter than 128 bytes). -/
def oracleEmpty : OracleModel :=
  { write := fun _ => .ok ()
    get := fun _ => .ok [] }

/-- External functions whose system-config derivation fails. -/
def fnsSysCfgFail : ExternalFns :=
  { fnsChain with to_system_config := fun _ _ => .err "sysconfig failure" }

/-- A concrete header used by the `update_cache` analysis. -/
def header7 : Header := ⟨0, 7, 11, 0⟩

/-- A concrete block carrying `header7`. -/
def block7 : OpBlock := ⟨header7, ⟨[], [], none, none⟩⟩

/-- A concrete rollup configuration with no Canyon time. -/
def cfg0 : RollupConfig := ⟨⟨0⟩, none⟩

/-- A header hash used only by the spec-side chain predicate in the
aggregation counterexample (the number field doubles as the hash). -/
def hashByNumber (h : Header) : Nat := h.number

/-- A header pair that does not link: the second header's parent hash is
99 while the first hashes to 5 under `hashByNumber`. -/
def brokenHeaders : List Header := [⟨0, 5, 0, 0⟩, ⟨99, 6, 0, 0⟩]

/-- A boot info whose L1 head (1234) appears nowhere in `brokenHeaders`. -/
def strayBootInfos : List BootInfoStruct := [⟨1234, 0, 0, 0, 0⟩]

/-- A concrete verifying key. -/
def vk0 : SP1VerifyingKey := ⟨3, [1, 2, 3, 4, 5, 6, 7, 8]⟩

/-! ## Theorems

Helper lemmas come first; the claim theorems follow, each preceded by a
doc comment naming the claim. -/

/-- If some element of the proof list is not compressed, the sub-proof
loop of `get_agg_proof_stdin` panics. -/
theorem writeSubProofs_panicked (stdin : SP1Stdin) (proofs : List SP1Proof)
    (vkey : SP1VerifyingKey) (p : SP1Proof) (hp : p ∈ proofs)
    (hnc : p.isCompressed = false) :
    writeSubProofs stdin proofs vkey = .panicked := by
  induction proofs generalizing stdin with
  | nil => exact absurd hp (List.not_mem_nil p)
  | cons q rest ih =>
    cases q with
    | compressed c =>
      rcases List.mem_cons.mp hp with rfl | hmem
      · simp [SP1Proof.isCompressed] at hnc
      · simpa [writeSubProofs] using ih (stdin.write_proof c vkey.vk) hmem
    | core c => rfl
    | plonk c => rfl
    | groth16 c => rfl

/-- If every element of the proof list is compressed, the sub-proof loop
succeeds and leaves the stdin buffer untouched (only the deferred proof
list grows). -/
theorem writeSubProofs_ok (stdin : SP1Stdin) (proofs : List SP1Proof)
    (vkey : SP1VerifyingKey) (hall : ∀ p ∈ proofs, p.isCompressed = true) :
    ∃ prs, writeSubProofs stdin proofs vkey = .ok ⟨stdin.buffer, prs⟩ := by
  induction proofs generalizing stdin with
  | nil => exact ⟨stdin.proofs, rfl⟩
  | cons q rest ih =>
    cases q with
    | compressed c =>
      obtain ⟨prs, hprs⟩ := ih (stdin.write_proof c vkey.vk)
        (fun p hp => hall p (List.mem_cons_of_mem _ hp))
      exact ⟨prs, by simpa [writeSubProofs] using hprs⟩
    | core c =>
      have := hall (.core c) (List.mem_cons_self _ _)
      simp [SP1Proof.isCompressed] at this
    | plonk c =>
      have := hall (.plonk c) (List.mem_cons_self _ _)
      simp [SP1Proof.isCompressed] at this
    | groth16 c =>
      have := hall (.groth16 c) (List.mem_cons_self _ _)
      simp [SP1Proof.isCompressed] at this

/-- C1 (counterexample): called on a PLONK-variant sub-proof,
`get_agg_proof_stdin` panics — it does not return a bad-subproof `Err`
as the claim states. -/
theorem C1_counterexample :
    get_agg_proof_stdin [SP1Proof.plonk 0] [] [] vk0 0 = .panicked ∧
    (get_agg_proof_stdin [SP1Proof.plonk 0] [] [] vk0 0).isErr = false := by
  decide

/-- C1 (amended): if any element of the proofs list is not a compressed
recursion proof, `get_agg_proof_stdin` panics (crashes) rather than
returning an error; when every element is compressed it succeeds. -/
theorem C1_agg_stdin_subproof_handling (proofs : List SP1Proof)
    (boot_infos : List BootInfoStruct) (headers : List Header)
    (vkey : SP1VerifyingKey) (head : Nat) :
    ((∃ p ∈ proofs, p.isCompressed = false) →
      get_agg_proof_stdin proofs boot_infos headers vkey head = .panicked) ∧
    ((∀ p ∈ proofs, p.isCompressed = true) →
      ∃ s, get_agg_proof_stdin proofs boot_infos headers vkey head = .ok s) := by
  constructor
  · rintro ⟨p, hp, hnc⟩
    unfold get_agg_proof_stdin
    rw [writeSubProofs_panicked SP1Stdin.new proofs vkey p hp hnc]
    rfl
  · intro hall
    obtain ⟨prs, hprs⟩ := writeSubProofs_ok SP1Stdin.new proofs vkey hall
    exact ⟨_, by unfold get_agg_proof_stdin; rw [hprs]; rfl⟩

/-- C1 (witness): the amended theorem applied at a PLONK sub-proof and at
a compressed sub-proof. -/
theorem C1_agg_stdin_subproof_handling_witness :
    get_agg_proof_stdin [SP1Proof.plonk 0] [] [] vk0 0 = .panicked ∧
    ∃ s, get_agg_proof_stdin [SP1Proof.compressed 0] [] [] vk0 0 = .ok s :=
  ⟨(C1_agg_stdin_subproof_handling [SP1Proof.plonk 0] [] [] vk0 0).1
      ⟨SP1Proof.plonk 0, by decide, by decide⟩,
    (C1_agg_stdin_subproof_handling [SP1Proof.compressed 0] [] [] vk0 0).2
      (by decide)⟩

/-- C2 (counterexample): `get_agg_proof_stdin` succeeds on a header list
that fails both conditions of the specification's chain-validity
predicate (the sub-proof's L1 head is absent and the adjacent pair does
not link), so successful calls do not imply a validated chain and
violating inputs are not rejected. -/
theorem C2_counterexample :
    specHeaderChainValid hashByNumber brokenHeaders strayBootInfos = false ∧
    (get_agg_proof_stdin [SP1Proof.compressed 0] strayBootInfos brokenHeaders
      vk0 0).isOk = true := by
  decide

/-- C2 (amended): `get_agg_proof_stdin` performs no validation of the
header chain: whenever every sub-proof is compressed it succeeds for
arbitrary headers and boot infos, writing the header list to stdin
exactly as given (chain validation is left to the in-zkVM aggregation
program, which is outside this repository's host code). -/
theorem C2_no_chain_validation (proofs : List SP1Proof)
    (boot_infos : List BootInfoStruct) (headers : List Header)
    (vkey : SP1VerifyingKey) (head : Nat)
    (hall : ∀ p ∈ proofs, p.isCompressed = true) :
    ∃ s, get_agg_proof_stdin proofs boot_infos headers vkey head = .ok s ∧
      s.buffer = [.aggInputs ⟨boot_infos, head, vkey.hash_u32⟩,
        .headerChain headers] := by
  obtain ⟨prs, hprs⟩ := writeSubProofs_ok SP1Stdin.new proofs vkey hall
  refine ⟨((SP1Stdin.mk [] prs).write
      (.aggInputs ⟨boot_infos, head, vkey.hash_u32⟩)).write_vec
      (.headerChain headers), ?_, rfl⟩
  unfold get_agg_proof_stdin
  rw [hprs]
  rfl

/-- C2 (witness): the amended theorem applied to the unvalidated broken
chain of the counterexample. -/
theorem C2_no_chain_validation_witness :
    ∃ s, get_agg_proof_stdin [SP1Proof.compressed 0] strayBootInfos
        brokenHeaders vk0 0 = .ok s ∧
      s.buffer = [.aggInputs ⟨strayBootInfos, 0, vk0.hash_u32⟩,
        .headerChain brokenHeaders] :=
  C2_no_chain_validation [SP1Proof.compressed 0] strayBootInfos brokenHeaders
    vk0 0 (by decide)

/-- C7 (code-bug evidence): when the witness-generation client returns an
error, `OPSuccinctHost::run` propagates the error through `?` before the
`server_task.abort()` line runs, leaving the preimage-server task
running; the abort happens only on the success path.  This contradicts
the claim that the auxiliary task is aborted on every exit path. -/
theorem C7_run_leaves_server_running_on_error :
    OPSuccinctHost.run (.err "witness generation failed") =
      ⟨.err "witness generation failed", .running⟩ ∧
    OPSuccinctHost.run (.ok ⟨0⟩) = ⟨.ok ⟨0⟩, .aborted⟩ := by
  decide

/-- C8 (code-bug evidence): on a prestate-output preimage shorter than
128 bytes (here: empty), the slice `output_preimage[96..128]` panics, so
`header_by_number` crashes instead of returning the corrupt-preimage
error the claim states (the `map_err` guards only the `try_into`, which
cannot fail once the slicing succeeded). -/
theorem C8_short_preimage_panics :
    extract_block_hash [] = .panicked ∧
    header_by_number fnsChain oracleEmpty bootChain ProviderState.new 10 0 =
      some .panicked := by
  decide

/-- C10: when the remote prover reports the proof fulfilled but the
returned variant is neither `Compressed` nor `Plonk`, `get_proof_status`
(in both server binaries) answers 200 with the fulfilled status string
and an empty proof byte vector — the same body shape as any
not-yet-fulfilled status. -/
theorem C10_fulfilled_unknown_variant_empty_proof
    (bincodeSer onchainBytes : SP1ProofWithPublicValues → List Nat)
    (p : SP1ProofWithPublicValues) (s : SP1ProofStatus)
    (hnc : p.proof.isCompressed = false) (hnp : p.proof.isPlonk = false)
    (hs : s ≠ .proofFulfilled) :
    get_proof_status bincodeSer onchainBytes .proofFulfilled (some p) =
      .ok ⟨200, SP1ProofStatus.as_str_name .proofFulfilled, []⟩ ∧
    get_proof_status bincodeSer onchainBytes s none =
      .ok ⟨200, s.as_str_name, []⟩ := by
  constructor
  · obtain ⟨pr⟩ := p
    cases pr with
    | core c => rfl
    | compressed c => simp [SP1Proof.isCompressed] at hnc
    | plonk c => simp [SP1Proof.isPlonk] at hnp
    | groth16 c => rfl
  · unfold get_proof_status
    rw [if_neg hs]

/-- C10 (witness): the theorem applied to a fulfilled core proof and to
a pending status. -/
theorem C10_fulfilled_unknown_variant_empty_proof_witness :
    get_proof_status (fun _ => [1]) (fun _ => [2]) .proofFulfilled
      (some ⟨.core 0⟩) = .ok ⟨200, "PROOF_FULFILLED", []⟩ ∧
    get_proof_status (fun _ => [1]) (fun _ => [2]) .proofRequested none =
      .ok ⟨200, "PROOF_REQUESTED", []⟩ :=
  C10_fulfilled_unknown_variant_empty_proof (fun _ => [1]) (fun _ => [2])
    ⟨.core 0⟩ .proofRequested rfl rfl (by decide)

/-- C5 (counterexample): when the system-config derivation fails,
`update_cache` returns an error but has already inserted the header and
the block into their caches — the four tables are not filled atomically
with respect to the error path, contradicting the claim that an erroring
call changes none of the tables. -/
theorem C5_counterexample :
    (update_cache fnsSysCfgFail ProviderState.new header7 block7 cfg0).1 =
      .err "sysconfig failure" ∧
    (update_cache fnsSysCfgFail ProviderState.new header7 block7
      cfg0).2.header_by_number.lookup 7 = some header7 ∧
    (update_cache fnsSysCfgFail ProviderState.new header7 block7
      cfg0).2.block_by_number.lookup 7 = some block7 ∧
    ProviderState.new.header_by_number.lookup 7 = none := by
  decide

/-- C5 (amended): `update_cache` always inserts the header and the block
under the header's number; on success the system config and the
`L2BlockInfo` rows are present as well (all four tables filled); but
when the system-config derivation fails, the call returns an error with
the header and block already inserted while the last two tables keep
their prior contents — the fill is atomic only on the success path. -/
theorem C5_update_cache_partial_fill (fns : ExternalFns)
    (st : ProviderState) (header : Header) (block : OpBlock)
    (config : RollupConfig) :
    ((update_cache fns st header block config).2.header_by_number.lookup
        header.number = some header ∧
      (update_cache fns st header block config).2.block_by_number.lookup
        header.number = some block) ∧
    (∀ info, (update_cache fns st header block config).1 = .ok info →
      (update_cache fns st header block config).2.system_config_by_number.lookup
          header.number ≠ none ∧
      (update_cache fns st header block config).2.l2_block_info_by_number.lookup
          header.number = some info) ∧
    ((fns.to_system_config block config).isOk = false →
      (update_cache fns st header block config).2.system_config_by_number =
        st.system_config_by_number ∧
      (update_cache fns st header block config).2.l2_block_info_by_number =
        st.l2_block_info_by_number) := by
  unfold update_cache
  cases hsc : fns.to_system_config block config with
  | ok sysCfg =>
    cases hbg : fns.from_block_and_genesis block config.genesis with
    | ok info =>
      refine ⟨⟨?_, ?_⟩, ?_, ?_⟩
      · simp [CacheMap.lookup, CacheMap.insert]
      · simp [CacheMap.lookup, CacheMap.insert]
      · intro info2 hinfo
        cases hinfo
        constructor
        · simp [CacheMap.lookup, CacheMap.insert]
        · simp [CacheMap.lookup, CacheMap.insert]
      · intro hfalse
        simp [RunResult.isOk] at hfalse
    | err e =>
      refine ⟨⟨?_, ?_⟩, ?_, ?_⟩
      · simp [CacheMap.lookup, CacheMap.insert]
      · simp [CacheMap.lookup, CacheMap.insert]
      · intro info2 hinfo
        cases hinfo
      · intro hfalse
        simp [RunResult.isOk] at hfalse
    | panicked =>
      refine ⟨⟨?_, ?_⟩, ?_, ?_⟩
      · simp [CacheMap.lookup, CacheMap.insert]
      · simp [CacheMap.lookup, CacheMap.insert]
      · intro info2 hinfo
        cases hinfo
      · intro hfalse
        simp [RunResult.isOk] at hfalse
  | err e =>
    refine ⟨⟨?_, ?_⟩, ?_, ?_⟩
    · simp [CacheMap.lookup, CacheMap.insert]
    · simp [CacheMap.lookup, CacheMap.insert]
    · intro info2 hinfo
      cases hinfo
    · intro _
      exact ⟨rfl, rfl⟩
  | panicked =>
    refine ⟨⟨?_, ?_⟩, ?_, ?_⟩
    · simp [CacheMap.lookup, CacheMap.insert]
    · simp [CacheMap.lookup, CacheMap.insert]
    · intro info2 hinfo
      cases hinfo
    · intro _
      exact ⟨rfl, rfl⟩

/-- C5 (witness): the amended theorem applied at a succeeding derivation
(all four rows present) and at a failing one (the last two tables keep
their prior, empty, contents). -/
theorem C5_update_cache_partial_fill_witness :
    (update_cache fnsChain ProviderState.new header7 block7
      cfg0).2.l2_block_info_by_number.lookup 7 = some ⟨0⟩ ∧
    (update_cache fnsSysCfgFail ProviderState.new header7 block7
      cfg0).2.system_config_by_number =
      ProviderState.new.system_config_by_number :=
  ⟨((C5_update_cache_partial_fill fnsChain ProviderState.new header7 block7
      cfg0).2.1 ⟨0⟩ (by decide)).2,
    ((C5_update_cache_partial_fill fnsSysCfgFail ProviderState.new header7
      block7 cfg0).2.2 (by decide)).1⟩

/-- Mapping a walk result into a pair with a fixed state never produces
a different state. -/
theorem result_state_walk_map (st : ProviderState)
    (x : Option (RunResult Header)) :
    result_state st (x.map (fun r => r.map (fun h => (h, st)))) = st := by
  cases x with
  | none => rfl
  | some r => cases r <;> rfl

/-- Rust `header_by_number` leaves the provider state unchanged. -/
theorem header_by_number_state (fns : ExternalFns) (o : OracleModel)
    (boot : BootInfo) (st : ProviderState) (fuel block_number : Nat) :
    result_state st (header_by_number fns o boot st fuel block_number) = st := by
  unfold header_by_number
  repeat' split
  all_goals first
    | rfl
    | exact result_state_walk_map st _

/-- Rust `block_by_number` leaves the provider state unchanged. -/
theorem block_by_number_state (fns : ExternalFns) (o : OracleModel)
    (boot : BootInfo) (st : ProviderState) (fuel number : Nat) :
    result_state st (block_by_number fns o boot st fuel number) = st := by
  unfold block_by_number
  split
  · rfl
  · split
    · rfl
    · rfl
    · rfl
    · rename_i header st1 heq
      have hst : st1 = st := by
        have h := header_by_number_state fns o boot st fuel number
        rw [heq] at h
        exact h
      subst hst
      try dsimp only
      repeat' split
      all_goals rfl

/-- Rust `l2_block_info_by_number` leaves the provider state unchanged. -/
theorem l2_block_info_by_number_state (fns : ExternalFns) (o : OracleModel)
    (boot : BootInfo) (st : ProviderState) (fuel number : Nat) :
    result_state st (l2_block_info_by_number fns o boot st fuel number) = st := by
  unfold l2_block_info_by_number
  split
  · rfl
  · split
    · rfl
    · rfl
    · rfl
    · rename_i block st1 heq
      have hst : st1 = st := by
        have h := block_by_number_state fns o boot st fuel number
        rw [heq] at h
        exact h
      subst hst
      try dsimp only
      repeat' split
      all_goals rfl

/-- Rust `system_config_by_number` leaves the provider state unchanged. -/
theorem system_config_by_number_state (fns : ExternalFns) (o : OracleModel)
    (boot : BootInfo) (st : ProviderState) (fuel number : Nat)
    (rollup_config : RollupConfig) :
    result_state st
      (system_config_by_number fns o boot st fuel number rollup_config) = st := by
  unfold system_config_by_number
  split
  · rfl
  · split
    · rfl
    · rfl
    · rfl
    · rename_i block st1 heq
      have hst : st1 = st := by
        have h := block_by_number_state fns o boot st fuel number
        rw [heq] at h
        exact h
      subst hst
      try dsimp only
      repeat' split
      all_goals rfl

/-- C9: the four number-keyed read operations never modify any of the
four per-number caches — on every outcome (hit, miss, error, panic, fuel
exhaustion) the provider state they leave behind is the state they were
given; `update_cache` is the only operation of the provider that inserts
a cache entry. -/
theorem C9_reads_do_not_write (fns : ExternalFns) (o : OracleModel)
    (boot : BootInfo) (st : ProviderState) (fuel number : Nat)
    (rollup_config : RollupConfig) :
    result_state st (header_by_number fns o boot st fuel number) = st ∧
    result_state st (block_by_number fns o boot st fuel number) = st ∧
    result_state st (l2_block_info_by_number fns o boot st fuel number) = st ∧
    result_state st
      (system_config_by_number fns o boot st fuel number rollup_config) = st :=
  ⟨header_by_number_state fns o boot st fuel number,
    block_by_number_state fns o boot st fuel number,
    l2_block_info_by_number_state fns o boot st fuel number,
    system_config_by_number_state fns o boot st fuel number rollup_config⟩

/-- Unfolding lemma for `CacheMap.lookup` after an insert. -/
theorem CacheMap.lookup_insert {α : Type} (m : CacheMap α) (k n : Nat)
    (v : α) :
    (m.insert k v).lookup n = if k = n then some v else m.lookup n := rfl

/-- The fresh provider state satisfies the cache-shape invariant. -/
theorem CacheInv_new : CacheInv ProviderState.new :=
  fun _ _ => ⟨rfl, rfl, rfl⟩

/-- Rust `update_cache` always replaces the header map by an insert at the
header's number (it is the first statement of the function, before any
fallible call). -/
theorem update_cache_header_map (fns : ExternalFns) (st : ProviderState)
    (header : Header) (block : OpBlock) (config : RollupConfig) :
    (update_cache fns st header block config).2.header_by_number =
      st.header_by_number.insert header.number header := by
  unfold update_cache
  repeat' split
  all_goals rfl

/-- Rust `update_cache` always replaces the block map by an insert at the
header's number (second statement, before any fallible call). -/
theorem update_cache_block_map (fns : ExternalFns) (st : ProviderState)
    (header : Header) (block : OpBlock) (config : RollupConfig) :
    (update_cache fns st header block config).2.block_by_number =
      st.block_by_number.insert header.number block := by
  unfold update_cache
  repeat' split
  all_goals rfl

/-- Rust `update_cache` touches the system-config map only at the header's
number: lookups at other numbers are unchanged on every path. -/
theorem update_cache_sys_lookup_ne (fns : ExternalFns) (st : ProviderState)
    (header : Header) (block : OpBlock) (config : RollupConfig) (n : Nat)
    (hk : header.number ≠ n) :
    (update_cache fns st header block config).2.system_config_by_number.lookup
      n = st.system_config_by_number.lookup n := by
  unfold update_cache
  repeat' split
  all_goals simp [CacheMap.insert, CacheMap.lookup, hk]

/-- Rust `update_cache` touches the block-info map only at the header's
number: lookups at other numbers are unchanged on every path. -/
theorem update_cache_info_lookup_ne (fns : ExternalFns) (st : ProviderState)
    (header : Header) (block : OpBlock) (config : RollupConfig) (n : Nat)
    (hk : header.number ≠ n) :
    (update_cache fns st header block config).2.l2_block_info_by_number.lookup
      n = st.l2_block_info_by_number.lookup n := by
  unfold update_cache
  repeat' split
  all_goals simp [CacheMap.insert, CacheMap.lookup, hk]

/-- Rust `update_cache` preserves the cache-shape invariant on every path
(success, derivation error, or panic), because the header row is always
inserted first. -/
theorem update_cache_preserves_CacheInv (fns : ExternalFns)
    (st : ProviderState) (header : Header) (block : OpBlock)
    (config : RollupConfig) (hinv : CacheInv st) :
    CacheInv (update_cache fns st header block config).2 := by
  intro n hn
  rw [update_cache_header_map, CacheMap.lookup_insert] at hn
  by_cases hk : header.number = n
  · rw [if_pos hk] at hn
    cases hn
  · rw [if_neg hk] at hn
    obtain ⟨hb, hs, hi⟩ := hinv n hn
    refine ⟨?_, ?_, ?_⟩
    · rw [update_cache_block_map, CacheMap.lookup_insert, if_neg hk]
      exact hb
    · rw [update_cache_sys_lookup_ne fns st header block config n hk]
      exact hs
    · rw [update_cache_info_lookup_ne fns st header block config n hk]
      exact hi

/-- C4: when the requested block number exceeds the safe head extracted
from the prestate output preimage and is not yet cached, the lookup
fails with the out-of-range error `Block number past L2 head.`, and the
same failure propagates through `block_by_number`,
`l2_block_info_by_number` and `system_config_by_number` (whose own
caches cannot hold the number either, by the cache-shape invariant that
reachable provider states satisfy). -/
theorem C4_past_safe_head_fails (fns : ExternalFns) (o : OracleModel)
    (boot : BootInfo) (st : ProviderState) (fuel n : Nat)
    (rollup_config : RollupConfig) (preimage : List Nat) (block_hash : Nat)
    (safe : Header)
    (hinv : CacheInv st)
    (hmiss : st.header_by_number.lookup n = none)
    (hw : o.write (.startingL2Output boot.l2_output_root) = .ok ())
    (hg : o.get boot.l2_output_root = .ok preimage)
    (hx : extract_block_hash preimage = .ok block_hash)
    (hh : header_by_hash fns o block_hash = .ok safe)
    (hrange : safe.number < n) :
    header_by_number fns o boot st fuel n =
      some (.err "Block number past L2 head.") ∧
    block_by_number fns o boot st fuel n =
      some (.err "Block number past L2 head.") ∧
    l2_block_info_by_number fns o boot st fuel n =
      some (.err "Block number past L2 head.") ∧
    system_config_by_number fns o boot st fuel n rollup_config =
      some (.err "Block number past L2 head.") := by
  obtain ⟨hbm, hsm, him⟩ := hinv n hmiss
  have h1 : header_by_number fns o boot st fuel n =
      some (.err "Block number past L2 head.") := by
    unfold header_by_number
    simp only [hmiss, hw, hg, hx, hh]
    simp [hrange]
  have h2 : block_by_number fns o boot st fuel n =
      some (.err "Block number past L2 head.") := by
    unfold block_by_number
    simp only [hbm, h1]
  refine ⟨h1, h2, ?_, ?_⟩
  · unfold l2_block_info_by_number
    simp only [him, h2]
  · unfold system_config_by_number
    simp only [hsm, h2]

set_option maxRecDepth 4000 in
/-- C4 (witness): a fresh provider asked for block 3 when the safe head
extracted from the prestate output has number 2. -/
theorem C4_past_safe_head_fails_witness :
    header_by_number fnsChain oracleChain bootChain ProviderState.new 10 3 =
      some (.err "Block number past L2 head.") ∧
    block_by_number fnsChain oracleChain bootChain ProviderState.new 10 3 =
      some (.err "Block number past L2 head.") ∧
    l2_block_info_by_number fnsChain oracleChain bootChain ProviderState.new
      10 3 = some (.err "Block number past L2 head.") ∧
    system_config_by_number fnsChain oracleChain bootChain ProviderState.new
      10 3 cfg0 = some (.err "Block number past L2 head.") :=
  C4_past_safe_head_fails fnsChain oracleChain bootChain ProviderState.new
    10 3 cfg0 pre128 2 ⟨1, 2, 0, 0⟩ CacheInv_new rfl rfl rfl (by decide)
    (by decide) (by decide)

/-- Unfolding lemma for one step of the parent walk. -/
theorem walk_back_succ (fns : ExternalFns) (o : OracleModel)
    (block_number : Nat) (header : Header) (fuel : Nat) :
    walk_back fns o block_number header (fuel + 1) =
      if block_number < header.number then
        match header_by_hash fns o header.parent_hash with
        | .ok parent => walk_back fns o block_number parent fuel
        | .err e => some (.err e)
        | .panicked => some .panicked
      else some (.ok header) := rfl

/-- If every header reachable during the walk (the safe head, or any
header the oracle's `header_by_hash` can return) has a resolvable parent
numbered exactly one less, the walk from a header numbered `n + k`
terminates within `k + 1` steps at a header numbered exactly `n`. -/
theorem walk_back_exact (fns : ExternalFns) (o : OracleModel) (n : Nat)
    (safe : Header)
    (hstep : ∀ hdr : Header,
      (hdr = safe ∨ ∃ h, header_by_hash fns o h = .ok hdr) →
      n < hdr.number →
      ∃ parent, header_by_hash fns o hdr.parent_hash = .ok parent ∧
        parent.number + 1 = hdr.number) :
    ∀ k (hdr : Header) (fuel : Nat),
      (hdr = safe ∨ ∃ h, header_by_hash fns o h = .ok hdr) →
      hdr.number = n + k → k < fuel →
      ∃ res, walk_back fns o n hdr fuel = some (.ok res) ∧
        res.number = n := by
  intro k
  induction k with
  | zero =>
    intro hdr fuel _ hnum hfuel
    obtain ⟨f, rfl⟩ : ∃ f, fuel = f + 1 := ⟨fuel - 1, by omega⟩
    refine ⟨hdr, ?_, by omega⟩
    rw [walk_back_succ, if_neg (by omega)]
  | succ k ih =>
    intro hdr fuel hres hnum hfuel
    obtain ⟨f, rfl⟩ : ∃ f, fuel = f + 1 := ⟨fuel - 1, by omega⟩
    have hlt : n < hdr.number := by omega
    obtain ⟨parent, hp, hpn⟩ := hstep hdr hres hlt
    have hone : walk_back fns o n hdr (f + 1) = walk_back fns o n parent f := by
      rw [walk_back_succ, if_pos hlt, hp]
    rw [hone]
    exact ih parent f (Or.inr ⟨hdr.parent_hash, hp⟩) (by omega) (by omega)

set_option maxRecDepth 4000 in
/-- C3 (counterexample): with an oracle whose `header_by_hash` is
strictly number-decreasing but skips a number (the safe head has number
2, its parent has number 0), `header_by_number` for target 1 terminates
but returns the header numbered 0, not a header numbered 1: the walk's
exit test `header.number > block_number` does not imply equality under a
merely strict decrease. -/
theorem C3_counterexample :
    header_by_hash fnsJump oracleChain 2 = .ok ⟨1, 2, 0, 0⟩ ∧
    header_by_hash fnsJump oracleChain 1 = .ok ⟨5, 0, 0, 0⟩ ∧
    (0 : Nat) < 2 ∧
    header_by_number fnsJump oracleChain bootChain ProviderState.new 10 1 =
      some (.ok (⟨5, 0, 0, 0⟩, ProviderState.new)) ∧
    (Header.mk 5 0 0 0).number ≠ 1 := by
  decide

/-- C3 (amended): for a target number `n` at most the safe-head number
(the safe head being the header whose hash sits in bytes [96..128] of
the prestate output preimage), not yet cached, and an oracle whose
`header_by_hash` resolves the parent of every reachable header to a
header numbered exactly one less, `header_by_number` terminates (for any
fuel exceeding the walk length) and returns a header whose number equals
`n`, leaving the caches untouched. -/
theorem C3_header_by_number_reaches_target (fns : ExternalFns)
    (o : OracleModel) (boot : BootInfo) (st : ProviderState) (fuel n : Nat)
    (preimage : List Nat) (block_hash : Nat) (safe : Header)
    (hmiss : st.header_by_number.lookup n = none)
    (hw : o.write (.startingL2Output boot.l2_output_root) = .ok ())
    (hg : o.get boot.l2_output_root = .ok preimage)
    (hx : extract_block_hash preimage = .ok block_hash)
    (hh : header_by_hash fns o block_hash = .ok safe)
    (hn : n ≤ safe.number)
    (hstep : ∀ hdr : Header,
      (hdr = safe ∨ ∃ h, header_by_hash fns o h = .ok hdr) →
      n < hdr.number →
      ∃ parent, header_by_hash fns o hdr.parent_hash = .ok parent ∧
        parent.number + 1 = hdr.number)
    (hfuel : safe.number - n < fuel) :
    ∃ hdr, header_by_number fns o boot st fuel n = some (.ok (hdr, st)) ∧
      hdr.number = n := by
  obtain ⟨res, hwres, hresn⟩ := walk_back_exact fns o n safe hstep
    (safe.number - n) safe fuel (Or.inl rfl) (by omega) hfuel
  refine ⟨res, ?_, hresn⟩
  unfold header_by_number
  simp only [hmiss, hw, hg, hx, hh]
  rw [if_neg (by omega), hwres]
  rfl

/-- In the chain oracle, every nonzero hash resolves to the header
numbered by the hash itself whose parent hash is one less. -/
theorem header_by_hash_chain (h : Nat) (hne : h ≠ 0) :
    header_by_hash fnsChain oracleChain h = .ok ⟨h - 1, h, 0, 0⟩ := by
  unfold header_by_hash oracleChain fnsChain
  simp [RunResult.bind, hne]

/-- In the chain oracle, hash 0 holds the output preimage, which is not
a header RLP, so resolving it fails. -/
theorem header_by_hash_chain_zero :
    header_by_hash fnsChain oracleChain 0 = .err "RLP" := by
  decide

/-- Shape of every header the chain oracle can return: its number is the
hash it was fetched under and its parent hash is one less. -/
theorem header_by_hash_chain_image (h : Nat) (hdr : Header)
    (hh : header_by_hash fnsChain oracleChain h = .ok hdr) :
    hdr.number = h ∧ hdr.parent_hash = h - 1 := by
  by_cases h0 : h = 0
  · subst h0
    rw [header_by_hash_chain_zero] at hh
    cases hh
  · rw [header_by_hash_chain h h0] at hh
    cases hh
    exact ⟨rfl, rfl⟩

/-- The chain oracle satisfies the exact-decrement step hypothesis of
the amended walk theorem for target 1 and safe head ⟨1, 2, 0, 0⟩. -/
theorem chain_step_exact : ∀ hdr : Header,
    (hdr = ⟨1, 2, 0, 0⟩ ∨
      ∃ h, header_by_hash fnsChain oracleChain h = .ok hdr) →
    1 < hdr.number →
    ∃ parent, header_by_hash fnsChain oracleChain hdr.parent_hash =
        .ok parent ∧ parent.number + 1 = hdr.number := by
  intro hdr hres hlt
  have hshape : hdr.parent_hash = hdr.number - 1 := by
    rcases hres with rfl | ⟨h, hh⟩
    · rfl
    · obtain ⟨hn, hp⟩ := header_by_hash_chain_image h hdr hh
      rw [hp, hn]
  rw [hshape, header_by_hash_chain (hdr.number - 1) (by omega)]
  exact ⟨⟨hdr.number - 1 - 1, hdr.number - 1, 0, 0⟩, rfl,
    by show hdr.number - 1 + 1 = hdr.number; omega⟩

set_option maxRecDepth 4000 in
/-- C3 (witness): the amended theorem applied to the chain oracle, with
safe head numbered 2 and target 1: the walk reaches a header numbered
exactly 1. -/
theorem C3_header_by_number_reaches_target_witness :
    ∃ hdr, header_by_number fnsChain oracleChain bootChain
      ProviderState.new 10 1 = some (.ok (hdr, ProviderState.new)) ∧
      hdr.number = 1 :=
  C3_header_by_number_reaches_target fnsChain oracleChain bootChain
    ProviderState.new 10 1 pre128 2 ⟨1, 2, 0, 0⟩ rfl rfl rfl (by decide)
    (by decide) (by decide) chain_step_exact (by decide)

/-- C6: every successful `block_by_number` call that misses the block
cache assembles a block whose withdrawals field is a present-but-empty
list exactly when the rollup config's Canyon activation predicate holds
at the resolved header's timestamp (and absent otherwise), whose ommers
list is empty, and whose requests field is absent. -/
theorem C6_block_assembly (fns : ExternalFns) (o : OracleModel)
    (boot : BootInfo) (st st1 : ProviderState) (fuel n : Nat)
    (header : Header) (leaves : List (List Nat)) (txs : List OpTx)
    (hmiss : st.block_by_number.lookup n = none)
    (hhdr : header_by_number fns o boot st fuel n = some (.ok (header, st1)))
    (hw : o.write (.l2Transactions (fns.hashSlow header)) = .ok ())
    (hl : fns.trieLeaves header.transactions_root = .ok leaves)
    (hd : decode_transactions fns leaves = .ok txs) :
    block_by_number fns o boot st fuel n =
      some (.ok
        ({ header := header
           body :=
             { transactions := txs
               ommers := []
               withdrawals :=
                 if boot.rollup_config.is_canyon_active header.timestamp
                 then some [] else none
               requests := none } }, st1)) := by
  unfold block_by_number
  simp only [hmiss, hw, hl, hd, hhdr]

set_option maxRecDepth 4000 in
/-- C6 (witness): the theorem applied to the chain oracle at the safe
head itself (number 2, Canyon inactive): the assembled block has no
transactions, no ommers, absent withdrawals and absent requests. -/
theorem C6_block_assembly_witness :
    block_by_number fnsChain oracleChain bootChain ProviderState.new 10 2 =
      some (.ok
        ({ header := ⟨1, 2, 0, 0⟩
           body :=
             { transactions := []
               ommers := []
               withdrawals := none
               requests := none } }, ProviderState.new)) := by
  have h := C6_block_assembly fnsChain oracleChain bootChain
    ProviderState.new ProviderState.new 10 2 ⟨1, 2, 0, 0⟩ [] [] rfl
    (by decide) rfl rfl rfl
  simpa using h

end OPSuccinct
